import Mathlib

/-!
Verification of `backtrader/data_reader.py`, a thin data-access layer over a
single `fund_nav` table.

The Python module is embedded shallowly:

* `buildConditions`, `buildQuery`, `buildParams` mirror the SQL-text assembly
  and named-parameter binding in `FundNAVReader.get_fund_nav_data`
  (lines 57-79 of the source).
* The database itself is not part of the repository, so the evaluation of the
  assembled statement is modelled from the spec: a table is a `List Row`, a
  comparison on `YYYY-MM-DD` date strings is byte-wise lexicographic
  (`strLe`), and the `WHERE` clause built from the present filters is the
  conjunction of its predicates (`navConditions` / `rowMatches`).
* Error paths (construction, execution, diagnostics) are embedded with
  explicit `Except` values standing for the driver outcomes.
-/

/-- Lexicographic order on char lists, comparing code points.  This is the
collation model for the SQL comparisons (`ORDER BY`, `>=`, `<=`, `MIN`,
`MAX`) on the ascii `fund_code` and `YYYY-MM-DD` `nav_date` columns. -/
def charListLe : List Char → List Char → Bool
  | [], _ => true
  | _ :: _, [] => false
  | a :: as, b :: bs =>
    if a.toNat < b.toNat then true
    else if b.toNat < a.toNat then false
    else charListLe as bs

/-- Lexicographic `≤` on strings (SQL collation model). -/
def strLe (a b : String) : Bool := charListLe a.data b.data

theorem charListLe_total : ∀ a b : List Char,
    charListLe a b = true ∨ charListLe b a = true
  | [], _ => Or.inl rfl
  | _ :: _, [] => Or.inr rfl
  | a :: as, b :: bs => by
    simp only [charListLe]
    rcases Nat.lt_trichotomy a.toNat b.toNat with h | h | h
    · left; simp [h]
    · have h1 : ¬ a.toNat < b.toNat := by omega
      have h2 : ¬ b.toNat < a.toNat := by omega
      simpa [h1, h2] using charListLe_total as bs
    · right; simp [h]

theorem charListLe_refl (a : List Char) : charListLe a a = true := by
  rcases charListLe_total a a with h | h <;> exact h

theorem charListLe_cons_iff (a b : Char) (as bs : List Char) :
    charListLe (a :: as) (b :: bs) = true ↔
      a.toNat < b.toNat ∨ (a.toNat = b.toNat ∧ charListLe as bs = true) := by
  simp only [charListLe]
  split_ifs with h1 h2
  · simp [h1]
  · simp; omega
  · have : a.toNat = b.toNat := by omega
    simp [this]

theorem charListLe_trans : ∀ a b c : List Char,
    charListLe a b = true → charListLe b c = true → charListLe a c = true
  | [], _, _ => by intro _ _; rfl
  | _ :: _, [], _ => by intro h _; simp [charListLe] at h
  | _ :: _, _ :: _, [] => by intro _ h; simp [charListLe] at h
  | a :: as, b :: bs, c :: cs => by
    intro h1 h2
    rw [charListLe_cons_iff] at h1 h2 ⊢
    rcases h1 with h1 | ⟨h1, h1r⟩ <;> rcases h2 with h2 | ⟨h2, h2r⟩
    · left; omega
    · left; omega
    · left; omega
    · right
      exact ⟨by omega, charListLe_trans as bs cs h1r h2r⟩

theorem strLe_total (a b : String) : strLe a b = true ∨ strLe b a = true :=
  charListLe_total a.data b.data

theorem strLe_refl (a : String) : strLe a a = true := charListLe_refl a.data

theorem strLe_trans {a b c : String} (h1 : strLe a b = true)
    (h2 : strLe b c = true) : strLe a c = true :=
  charListLe_trans a.data b.data c.data h1 h2

instance : IsTotal String (fun a b => strLe a b = true) := ⟨strLe_total⟩

instance : IsTrans String (fun a b => strLe a b = true) :=
  ⟨fun _ _ _ => strLe_trans⟩

/-- A row of the `fund_nav` table.  The schema contract assumed by the code:
an entity code column `fund_code`, a date column `nav_date`, and a value
column. -/
structure Row where
  fund_code : String
  nav_date : String
  nav : Rat
deriving DecidableEq

/-- Python truthiness of the optional `fund_codes` argument:
`None` and `[]` are both falsy (`if fund_codes:` on line 63). -/
def truthyCodes : Option (List String) → Bool
  | none => false
  | some cs => !cs.isEmpty

/-- Python truthiness of an optional string argument: `None` and the empty
string are both falsy (`if start_date:` on line 69, `if end_date:` line 73). -/
def truthyStr : Option String → Bool
  | none => false
  | some s => !s.isEmpty

/-- The underlying list of codes (empty when the argument is absent). -/
def codesOf : Option (List String) → List String
  | none => []
  | some cs => cs

/-- The comma-joined placeholder list `:fund_code_0,...,:fund_code_{n-1}`
built on line 64. -/
def placeholders (n : Nat) : String :=
  String.intercalate "," ((List.range n).map (fun i => ":fund_code_" ++ toString i))

/-- The `conditions` list of SQL fragments assembled on lines 59-75. -/
def buildConditions (fund_codes : Option (List String))
    (start_date end_date : Option String) : List String :=
  (if truthyCodes fund_codes then
    ["fund_code IN (" ++ placeholders (codesOf fund_codes).length ++ ")"]
   else [])
  ++ (if truthyStr start_date then ["nav_date >= :start_date"] else [])
  ++ (if truthyStr end_date then ["nav_date <= :end_date"] else [])

/-- The final SQL text of `get_fund_nav_data` (lines 58, 78-79): the base
query, plus a `WHERE` clause joining the conditions with `AND` when any
condition is present. -/
def buildQuery (fund_codes : Option (List String))
    (start_date end_date : Option String) : String :=
  let conditions := buildConditions fund_codes start_date end_date
  if conditions.isEmpty then "SELECT * FROM fund_nav"
  else "SELECT * FROM fund_nav" ++ " WHERE " ++ String.intercalate " AND " conditions

/-- The `params` dictionary of `get_fund_nav_data` (lines 60-75), as an
association list: one uniquely named entry `fund_code_i` per code (bound in
the loop on lines 66-67), plus `start_date` / `end_date` when present. -/
def buildParams (fund_codes : Option (List String))
    (start_date end_date : Option String) : List (String × String) :=
  (if truthyCodes fund_codes then
    (codesOf fund_codes).enum.map (fun p => ("fund_code_" ++ toString p.1, p.2))
   else [])
  ++ (if truthyStr start_date then [("start_date", start_date.getD "")] else [])
  ++ (if truthyStr end_date then [("end_date", end_date.getD "")] else [])

/-- Semantic counterpart of one SQL condition fragment, as the database
evaluates it against a row (modelled from the spec: standard SQL semantics
of `IN`, `>=`, `<=` with bound parameters matched as literal values). -/
inductive NavCond where
  | codeIn (codes : List String)
  | dateGe (d : String)
  | dateLe (d : String)
deriving DecidableEq

/-- Evaluation of one condition at a row. -/
def NavCond.eval (r : Row) : NavCond → Bool
  | .codeIn codes => codes.contains r.fund_code
  | .dateGe d => strLe d r.nav_date
  | .dateLe d => strLe r.nav_date d

/-- The semantic conditions list, in one-to-one correspondence with the SQL
fragments of `buildConditions` together with their bound parameters from
`buildParams`. -/
def navConditions (fund_codes : Option (List String))
    (start_date end_date : Option String) : List NavCond :=
  (if truthyCodes fund_codes then [NavCond.codeIn (codesOf fund_codes)] else [])
  ++ (if truthyStr start_date then [NavCond.dateGe (start_date.getD "")] else [])
  ++ (if truthyStr end_date then [NavCond.dateLe (end_date.getD "")] else [])

/-- A row satisfies the `WHERE` clause iff it satisfies every condition
(the fragments are joined with `AND` on line 79). -/
def rowMatches (fund_codes : Option (List String))
    (start_date end_date : Option String) (r : Row) : Bool :=
  (navConditions fund_codes start_date end_date).all (fun c => c.eval r)

/-- Modelled from the spec: result of the database executing the query built
by `get_fund_nav_data` over the `fund_nav` table — the rows satisfying the
conjunction of the present predicates, in table order (the full table when no
condition is present). -/
def queryNavTable (table : List Row) (fund_codes : Option (List String))
    (start_date end_date : Option String) : List Row :=
  table.filter (rowMatches fund_codes start_date end_date)

/-- The driver-level failures an execution can produce (modelled from the
spec's error taxonomy). -/
inductive DriverError where
  | badConnection
  | malformedPredicate
  | permissionDenied
deriving DecidableEq

/-- Diagnostic text of a driver error (stands for Python `str(e)`). -/
def DriverError.message : DriverError → String
  | .badConnection => "bad connection"
  | .malformedPredicate => "malformed predicate"
  | .permissionDenied => "permission denied"

/-- The caller-visible query failure: the underlying driver error, wrapped
(modelled from the spec: the spec calls the propagated, wrapped driver error
`QueryError`; the method body, lines 82-87, installs no handler of its own,
so the wrapped error reaches the caller). -/
inductive QueryError where
  | wrap (e : DriverError)
deriving DecidableEq

/-- Construction failure of `FundNAVReader.__init__` (the spec calls it
`ConfigurationError`; the code raises `ValueError`). -/
inductive InitError where
  | databaseUrlNotFound
deriving DecidableEq

/-- An engine handle as returned by `create_engine` (line 38). -/
structure Engine where
  url : String
deriving DecidableEq

/-- Modelled from the spec: `sqlalchemy.create_engine` builds an engine from
the URL without establishing any connection; connection failures surface
lazily on the first query. -/
def create_engine (url : String) : Engine := { url := url }

/-- The `FundNAVReader` object: the stored `database_url` and the engine. -/
structure FundNAVReader where
  database_url : String
  engine : Engine
deriving DecidableEq

/-- `FundNAVReader.__init__` (lines 32-38): reads `DATABASE_URL` from the
environment; `if not self.database_url:` raises for both an absent variable
(`None`) and an empty string, before any query executes; otherwise the engine
is created and construction succeeds. -/
def FundNAVReader.init (env_database_url : Option String) :
    Except InitError FundNAVReader :=
  let database_url := env_database_url.getD ""
  if database_url.isEmpty then .error .databaseUrlNotFound
  else .ok { database_url := database_url, engine := create_engine database_url }

/-- The method `FundNAVReader.get_fund_nav_data` on the success path
(lines 40-87): the table the engine's database holds is `db self.engine`;
the built, parameterized statement is executed against it. -/
def FundNAVReader.get_fund_nav_data (reader : FundNAVReader)
    (db : Engine → List Row) (fund_codes : Option (List String))
    (start_date end_date : Option String) : List Row :=
  queryNavTable (db reader.engine) fund_codes start_date end_date

/-- The method `FundNAVReader.get_fund_nav_data` with the execution outcome
made explicit (lines 82-87): `exec` stands for the driver executing the
statement text with its bound parameters on the reader's engine; the body
has no handler, so a driver failure reaches the caller as the wrapped query
error, and `exec` is consulted exactly once (no retry). -/
def FundNAVReader.run_get_fund_nav_data (reader : FundNAVReader)
    (exec : Engine → String → List (String × String) → Except DriverError (List Row))
    (fund_codes : Option (List String)) (start_date end_date : Option String) :
    Except QueryError (List Row) :=
  match exec reader.engine (buildQuery fund_codes start_date end_date)
      (buildParams fund_codes start_date end_date) with
  | .error err => .error (QueryError.wrap err)
  | .ok rows => .ok rows

/-- The module state after a successful import: the singleton
`_fund_nav_reader` constructed at line 91. -/
structure ModuleState where
  reader : FundNAVReader
deriving DecidableEq

/-- Module loading (lines 90-91): constructs the global `_fund_nav_reader`
at the moment the module loads, so a missing `DATABASE_URL` raises already
here. -/
def importModule (env_database_url : Option String) :
    Except InitError ModuleState :=
  match FundNAVReader.init env_database_url with
  | .error e => .error e
  | .ok r => .ok { reader := r }

/-- Module-level `get_fund_nav_data` (lines 94-110): pure delegation to the
singleton's method. -/
def get_fund_nav_data (st : ModuleState) (db : Engine → List Row)
    (fund_codes : Option (List String)) (start_date end_date : Option String) :
    List Row :=
  st.reader.get_fund_nav_data db fund_codes start_date end_date

/-- Modelled from the spec: result of
`SELECT DISTINCT fund_code FROM fund_nav ORDER BY fund_code` over a table —
the distinct codes in ascending lexical order. -/
def distinctOrderedCodes (table : List Row) : List String :=
  ((table.map Row.fund_code).dedup).insertionSort (fun a b => strLe a b = true)

/-- Module-level `get_all_fund_codes` (lines 113-124): runs the distinct
query on the singleton's engine and flattens the single-column result. -/
def get_all_fund_codes (st : ModuleState) (db : Engine → List Row) :
    List String :=
  distinctOrderedCodes (db st.reader.engine)

/-- Fold computing the least element of `d :: ds` under `strLe`
(the SQL `MIN` aggregate). -/
def minFold (d : String) (ds : List String) : String :=
  ds.foldl (fun acc x => if strLe acc x then acc else x) d

/-- Fold computing the greatest element of `d :: ds` under `strLe`
(the SQL `MAX` aggregate). -/
def maxFold (d : String) (ds : List String) : String :=
  ds.foldl (fun acc x => if strLe x acc then acc else x) d

/-- Modelled from the spec: result of
`SELECT MIN(nav_date), MAX(nav_date) FROM fund_nav` over a table — both
components `NULL` on an empty table, otherwise the attained extrema. -/
def minMaxDates (table : List Row) : Option String × Option String :=
  match table.map Row.nav_date with
  | [] => (none, none)
  | d :: ds => (some (minFold d ds), some (maxFold d ds))

/-- Module-level `get_date_range` (lines 127-138): runs the aggregate query
on the singleton's engine and returns the single row as a pair. -/
def get_date_range (st : ModuleState) (db : Engine → List Row) :
    Option String × Option String :=
  minMaxDates (db st.reader.engine)

/-- Module-level `test_connection` (lines 141-162).  Everything runs inside
`try`: a falsy `DATABASE_URL` prints an error and returns `False`; otherwise
the trivial bounded count query runs on the singleton's engine (`countOf`
gives each engine's outcome), `True` is returned on success and any exception is caught,
printed and converted to `False`.  The second component collects the printed
lines; the return type `Bool × List String` (no `Except`) is the embedding of
"never raises past this boundary". -/
def test_connection (st : ModuleState) (env_database_url : Option String)
    (countOf : Engine → Except DriverError Nat) : Bool × List String :=
  let database_url := env_database_url.getD ""
  if database_url.isEmpty then
    (false, ["ERROR: DATABASE_URL environment variable not found"])
  else
    let found := "Database URL found: " ++ (if database_url.isEmpty then "No" else "Yes")
    let preview :=
      if database_url.length > 50 then "URL preview: " ++ (database_url.take 50) ++ "..."
      else "Full URL: " ++ database_url
    match countOf st.reader.engine with
    | .ok count =>
        (true, [found, preview,
          "Connection successful! Found " ++ toString count ++ " records in fund_nav table"])
    | .error err =>
        (false, [found, preview, "Connection failed: " ++ err.message])

/-- A concrete reader for witnesses: the engine built from a fixed URL. -/
def sampleReader : FundNAVReader :=
  { database_url := "mysql://localhost/funds",
    engine := create_engine "mysql://localhost/funds" }

/-- A concrete module state (singleton holding `sampleReader`). -/
def sampleState : ModuleState := { reader := sampleReader }

/-- The first row of the spec's concrete scenario. -/
def row1 : Row := { fund_code := "FUND001", nav_date := "2023-01-01", nav := 10 }

/-- The second row of the spec's concrete scenario. -/
def row2 : Row := { fund_code := "FUND001", nav_date := "2023-06-01", nav := 11 }

/-- The third row of the spec's concrete scenario. -/
def row3 : Row := { fund_code := "FUND002", nav_date := "2023-03-01", nav := 5 }

/-- The spec's concrete three-row `fund_nav` table. -/
def sampleTable : List Row := [row1, row2, row3]

/-- A database world in which every engine serves `sampleTable`. -/
def sampleDb : Engine → List Row := fun _ => sampleTable

theorem isEmpty_false_of_ne {s : String} (h : s ≠ "") : s.isEmpty = false := by
  cases hh : s.isEmpty
  · rfl
  · exact absurd ((String.isEmpty_iff s).mp hh) h

theorem navConditions_codeIn {codes : List String} (h : codes ≠ [])
    (sd ed : Option String) :
    NavCond.codeIn codes ∈ navConditions (some codes) sd ed := by
  have ht : truthyCodes (some codes) = true := by
    cases codes with
    | nil => exact absurd rfl h
    | cons x xs => rfl
  simp [navConditions, ht, codesOf]

theorem navConditions_dateGe {s : String} (h : s ≠ "")
    (cs : Option (List String)) (ed : Option String) :
    NavCond.dateGe s ∈ navConditions cs (some s) ed := by
  have ht : truthyStr (some s) = true := by
    simp [truthyStr, isEmpty_false_of_ne h]
  simp [navConditions, ht]

theorem navConditions_dateLe {e : String} (h : e ≠ "")
    (cs : Option (List String)) (sd : Option String) :
    NavCond.dateLe e ∈ navConditions cs sd (some e) := by
  have ht : truthyStr (some e) = true := by
    simp [truthyStr, isEmpty_false_of_ne h]
  simp [navConditions, ht]

theorem rowMatches_eval {fund_codes : Option (List String)}
    {sd ed : Option String} {r : Row}
    (h : rowMatches fund_codes sd ed r = true) :
    ∀ c ∈ navConditions fund_codes sd ed, c.eval r = true := by
  intro c hc
  exact List.all_eq_true.mp h c hc

/-- C1: for every combination of optional filters, `query_nav` returns only
rows satisfying the conjunction of the present predicates — with a non-empty
code set every returned row's code is in the set; with both dates given
(s ≤ e) every returned row's date lies in [s, e] inclusive; and with no
filters the full table is returned, with row count equal to the table
size. -/
theorem query_nav_filter_sound (st : ModuleState) (db : Engine → List Row)
    (codes : List String) (s e : String) (sd ed : Option String)
    (hcodes : codes ≠ []) (hs : s ≠ "") (he : e ≠ "")
    (hse : strLe s e = true) :
    (∀ r ∈ get_fund_nav_data st db (some codes) sd ed, r.fund_code ∈ codes) ∧
    (∀ cs, ∀ r ∈ get_fund_nav_data st db cs (some s) (some e),
      strLe s r.nav_date = true ∧ strLe r.nav_date e = true) ∧
    get_fund_nav_data st db none none none = db st.reader.engine ∧
    (get_fund_nav_data st db none none none).length =
      (db st.reader.engine).length := by
  have hfull : get_fund_nav_data st db none none none = db st.reader.engine := by
    simp [get_fund_nav_data, FundNAVReader.get_fund_nav_data, queryNavTable,
      rowMatches, navConditions, truthyCodes, truthyStr]
  refine ⟨?_, ?_, hfull, by rw [hfull]⟩
  · intro r hr
    have hm := (List.mem_filter.mp hr).2
    have hev := rowMatches_eval hm (NavCond.codeIn codes)
      (navConditions_codeIn hcodes sd ed)
    simpa [NavCond.eval] using hev
  · intro cs r hr
    have hm := (List.mem_filter.mp hr).2
    have hge := rowMatches_eval hm (NavCond.dateGe s)
      (navConditions_dateGe hs cs (some e))
    have hle := rowMatches_eval hm (NavCond.dateLe e)
      (navConditions_dateLe he cs (some s))
    exact ⟨hge, hle⟩

/-- C1 witness: at the concrete state and table, the unfiltered call returns
the full table. -/
theorem query_nav_filter_sound_witness :
    get_fund_nav_data sampleState sampleDb none none none =
      sampleDb sampleState.reader.engine :=
  (query_nav_filter_sound sampleState sampleDb ["FUND001"] "2023-01-01"
    "2023-06-01" none none (by decide) (by decide) (by decide) (by decide)).2.2.1

/-- C8: on the concrete table {(FUND001, 2023-01-01, 10.0),
(FUND001, 2023-06-01, 11.0), (FUND002, 2023-03-01, 5.0)}, the call
`query_nav(codes=["FUND001"], start_date="2023-02-01")` returns exactly the
single row (FUND001, 2023-06-01, 11.0). -/
theorem query_nav_concrete_scenario :
    get_fund_nav_data sampleState sampleDb (some ["FUND001"])
      (some "2023-02-01") none = [row2] := by
  decide

/-- C9: `get_fund_nav_data` tests each filter by Python truthiness, so an
empty code list and empty-string dates are each treated exactly as an absent
filter, and with all filters empty the full unfiltered table is returned. -/
theorem empty_filters_treated_as_absent (st : ModuleState)
    (db : Engine → List Row) (cs : Option (List String))
    (sd ed : Option String) :
    get_fund_nav_data st db (some []) sd ed =
      get_fund_nav_data st db none sd ed ∧
    get_fund_nav_data st db cs (some "") ed =
      get_fund_nav_data st db cs none ed ∧
    get_fund_nav_data st db cs sd (some "") =
      get_fund_nav_data st db cs sd none ∧
    get_fund_nav_data st db (some []) (some "") (some "") =
      db st.reader.engine := by
  refine ⟨rfl, rfl, rfl, ?_⟩
  have h0 : "".isEmpty = true := rfl
  simp [get_fund_nav_data, FundNAVReader.get_fund_nav_data, queryNavTable,
    rowMatches, navConditions, truthyCodes, truthyStr, h0]

theorem init_error_of_falsy {env : Option String}
    (h : truthyStr env = false) :
    FundNAVReader.init env = .error .databaseUrlNotFound := by
  cases env with
  | none => rfl
  | some s =>
    have hs : s.isEmpty = true := by
      simpa [truthyStr] using h
    simp [FundNAVReader.init, hs]

/-- C3: construction fails with the configuration error when the connection
string is absent or empty, before any query executes; with a non-empty
setting it succeeds, and — since `FundNAVReader.init` takes no connection
outcome at all — success never depends on whether a connection could be
established (failures surface lazily on first query). -/
theorem init_requires_database_url (env : Option String) :
    (truthyStr env = false →
      FundNAVReader.init env = .error .databaseUrlNotFound) ∧
    (∀ url : String, env = some url → url ≠ "" →
      FundNAVReader.init env =
        .ok { database_url := url, engine := create_engine url }) := by
  constructor
  · exact init_error_of_falsy
  · intro url henv hurl
    subst henv
    simp [FundNAVReader.init, isEmpty_false_of_ne hurl]

/-- C3 witness: absent setting errors; a concrete URL constructs the
reader. -/
theorem init_requires_database_url_witness :
    FundNAVReader.init none = .error .databaseUrlNotFound ∧
    FundNAVReader.init (some "mysql://localhost/funds") =
      .ok { database_url := "mysql://localhost/funds",
            engine := create_engine "mysql://localhost/funds" } :=
  ⟨(init_requires_database_url none).1 (by decide),
   (init_requires_database_url (some "mysql://localhost/funds")).2
     "mysql://localhost/funds" rfl (by decide)⟩

theorem enumParams_fst (cs : List String) :
    List.map (Prod.fst ∘ fun p => ("fund_code_" ++ toString p.1, p.2)) cs.enum =
      (List.range cs.length).map (fun i => "fund_code_" ++ toString i) := by
  rw [← List.enum_map_fst cs, List.map_map]
  rfl

theorem enumParams_snd (cs : List String) :
    List.map (Prod.snd ∘ fun p => ("fund_code_" ++ toString p.1, p.2)) cs.enum =
      cs := by
  conv_rhs => rw [← List.enum_map_snd cs]
  rfl

/-- C2: the assembled SQL text depends only on the number of codes and on the
presence of each date filter, never on the filter values; the values appear
only in the parameter bindings, each code under its own name `fund_code_i`
and each date under its own name.  A code value full of SQL metacharacters
therefore cannot alter the query structure. -/
theorem query_text_value_independent (c1 c2 : Option (List String))
    (s1 s2 e1 e2 : Option String)
    (hc : truthyCodes c1 = truthyCodes c2)
    (hn : (codesOf c1).length = (codesOf c2).length)
    (hs : truthyStr s1 = truthyStr s2)
    (he : truthyStr e1 = truthyStr e2) :
    buildQuery c1 s1 e1 = buildQuery c2 s2 e2 ∧
    (buildParams c1 s1 e1).map Prod.fst =
      (if truthyCodes c1 then
        (List.range (codesOf c1).length).map (fun i => "fund_code_" ++ toString i)
       else [])
      ++ (if truthyStr s1 then ["start_date"] else [])
      ++ (if truthyStr e1 then ["end_date"] else []) ∧
    (buildParams c1 s1 e1).map Prod.snd =
      (if truthyCodes c1 then codesOf c1 else [])
      ++ (if truthyStr s1 then [s1.getD ""] else [])
      ++ (if truthyStr e1 then [e1.getD ""] else []) := by
  refine ⟨?_, ?_, ?_⟩
  · simp only [buildQuery, buildConditions, hc, hn, hs, he]
  · simp only [buildParams, List.map_append]
    cases htc : truthyCodes c1 <;> cases hts : truthyStr s1 <;>
      cases hte : truthyStr e1 <;> simp [enumParams_fst]
  · simp only [buildParams, List.map_append]
    cases htc : truthyCodes c1 <;> cases hts : truthyStr s1 <;>
      cases hte : truthyStr e1 <;> simp [enumParams_snd]

/-- C2 witness: a code value containing SQL metacharacters yields the same
query text as an ordinary code. -/
theorem query_text_value_independent_witness :
    buildQuery (some ["x); DROP TABLE fund_nav;--"]) (some "2023-01-01") none =
      buildQuery (some ["FUND001"]) (some "2023-12-31") none :=
  (query_text_value_independent (some ["x); DROP TABLE fund_nav;--"])
    (some ["FUND001"]) (some "2023-01-01") (some "2023-12-31") none none
    (by decide) (by decide) (by decide) (by decide)).1

/-- C4: `list_codes` returns, as a set, exactly the distinct codes present in
the table, sorted in ascending lexical order, with no duplicates. -/
theorem list_codes_distinct_sorted (st : ModuleState) (db : Engine → List Row) :
    (∀ c, c ∈ get_all_fund_codes st db ↔
      c ∈ (db st.reader.engine).map Row.fund_code) ∧
    List.Sorted (fun a b => strLe a b = true) (get_all_fund_codes st db) ∧
    (get_all_fund_codes st db).Nodup := by
  refine ⟨?_, ?_, ?_⟩
  · intro c
    rw [get_all_fund_codes, distinctOrderedCodes,
      (List.perm_insertionSort _ _).mem_iff, List.mem_dedup]
  · exact List.sorted_insertionSort _ _
  · exact (List.perm_insertionSort _ _).nodup_iff.mpr (List.nodup_dedup _)

theorem minFold_mem : ∀ (ds : List String) (d : String), minFold d ds ∈ d :: ds
  | [], d => by simp [minFold]
  | x :: ds, d => by
    have heq : minFold d (x :: ds) = minFold (if strLe d x then d else x) ds := rfl
    rw [heq]
    rcases List.mem_cons.mp (minFold_mem ds (if strLe d x then d else x)) with h | h
    · rw [h]
      split_ifs <;> simp
    · simp [h]

theorem minFold_le : ∀ (ds : List String) (d x : String),
    x ∈ d :: ds → strLe (minFold d ds) x = true
  | [], d, x => by
    intro hx
    rcases List.mem_cons.mp hx with h | h
    · rw [h]; exact strLe_refl d
    · simp at h
  | y :: ds, d, x => by
    intro hx
    have heq : minFold d (y :: ds) = minFold (if strLe d y then d else y) ds := rfl
    rw [heq]
    have hd : strLe (if strLe d y then d else y) d = true := by
      split_ifs with h
      · exact strLe_refl d
      · rcases strLe_total d y with h2 | h2
        · exact absurd h2 (by simpa using h)
        · exact h2
    have hy : strLe (if strLe d y then d else y) y = true := by
      split_ifs with h
      · exact h
      · exact strLe_refl y
    rcases List.mem_cons.mp hx with rfl | hx2
    · exact strLe_trans (minFold_le ds _ _ (List.mem_cons_self _ _)) hd
    · rcases List.mem_cons.mp hx2 with rfl | hx3
      · exact strLe_trans (minFold_le ds _ _ (List.mem_cons_self _ _)) hy
      · exact minFold_le ds _ x (List.mem_cons_of_mem _ hx3)

theorem maxFold_mem : ∀ (ds : List String) (d : String), maxFold d ds ∈ d :: ds
  | [], d => by simp [maxFold]
  | x :: ds, d => by
    have heq : maxFold d (x :: ds) = maxFold (if strLe x d then d else x) ds := rfl
    rw [heq]
    rcases List.mem_cons.mp (maxFold_mem ds (if strLe x d then d else x)) with h | h
    · rw [h]
      split_ifs <;> simp
    · simp [h]

theorem le_maxFold : ∀ (ds : List String) (d x : String),
    x ∈ d :: ds → strLe x (maxFold d ds) = true
  | [], d, x => by
    intro hx
    rcases List.mem_cons.mp hx with h | h
    · rw [h]; exact strLe_refl d
    · simp at h
  | y :: ds, d, x => by
    intro hx
    have heq : maxFold d (y :: ds) = maxFold (if strLe y d then d else y) ds := rfl
    rw [heq]
    have hd : strLe d (if strLe y d then d else y) = true := by
      split_ifs with h
      · exact strLe_refl d
      · rcases strLe_total y d with h2 | h2
        · exact absurd h2 (by simpa using h)
        · exact h2
    have hy : strLe y (if strLe y d then d else y) = true := by
      split_ifs with h
      · exact h
      · exact strLe_refl y
    rcases List.mem_cons.mp hx with rfl | hx2
    · exact strLe_trans hd (le_maxFold ds _ _ (List.mem_cons_self _ _))
    · rcases List.mem_cons.mp hx2 with rfl | hx3
      · exact strLe_trans hy (le_maxFold ds _ _ (List.mem_cons_self _ _))
      · exact le_maxFold ds _ x (List.mem_cons_of_mem _ hx3)

/-- C5: on a non-empty table `date_range` returns an attained pair of bounds
enclosing every row's date; on an empty table it returns (null, null) and
substitutes no defaults. -/
theorem date_range_bounds (st : ModuleState) (db : Engine → List Row) :
    (db st.reader.engine = [] → get_date_range st db = (none, none)) ∧
    (∀ dmin dmax, get_date_range st db = (some dmin, some dmax) →
      (∀ r ∈ db st.reader.engine,
        strLe dmin r.nav_date = true ∧ strLe r.nav_date dmax = true) ∧
      dmin ∈ (db st.reader.engine).map Row.nav_date ∧
      dmax ∈ (db st.reader.engine).map Row.nav_date) ∧
    (db st.reader.engine ≠ [] →
      ∃ dmin dmax, get_date_range st db = (some dmin, some dmax)) := by
  refine ⟨?_, ?_, ?_⟩
  · intro h
    simp [get_date_range, minMaxDates, h]
  · intro dmin dmax h
    rw [get_date_range, minMaxDates] at h
    cases htab : (db st.reader.engine).map Row.nav_date with
    | nil => rw [htab] at h; simp at h
    | cons d ds =>
      rw [htab] at h
      simp only [Prod.mk.injEq, Option.some.injEq] at h
      obtain ⟨h1, h2⟩ := h
      subst h1; subst h2
      refine ⟨?_, ?_, ?_⟩
      · intro r hr
        have hmem : r.nav_date ∈ d :: ds :=
          htab ▸ List.mem_map_of_mem Row.nav_date hr
        exact ⟨minFold_le ds d _ hmem, le_maxFold ds d _ hmem⟩
      · exact minFold_mem ds d
      · exact maxFold_mem ds d
  · intro h
    cases htab : (db st.reader.engine).map Row.nav_date with
    | nil => exact absurd (List.map_eq_nil_iff.mp htab) h
    | cons d ds =>
      exact ⟨_, _, by rw [get_date_range, minMaxDates, htab]⟩

/-- C6: `test_connection` always returns a boolean — the total return type
(no `Except`) embeds that no exception escapes this boundary; it returns
`True` exactly when the setting is truthy and the trivial bounded count
query succeeds, and a query failure is printed (it appears in the output
lines), not raised. -/
theorem test_connection_boolean_boundary (st : ModuleState)
    (env : Option String) (countOf : Engine → Except DriverError Nat) :
    ((test_connection st env countOf).1 = true ↔
      truthyStr env = true ∧ ∃ n, countOf st.reader.engine = .ok n) ∧
    (∀ err, truthyStr env = true → countOf st.reader.engine = .error err →
      "Connection failed: " ++ err.message ∈
        (test_connection st env countOf).2) := by
  have hts : truthyStr env = !(env.getD "").isEmpty := by
    cases env <;> rfl
  constructor
  · cases hc : countOf st.reader.engine with
    | ok n =>
      cases he : (env.getD "").isEmpty <;>
        simp [test_connection, he, hc, hts]
    | error err =>
      cases he : (env.getD "").isEmpty <;>
        simp [test_connection, he, hc, hts]
  · intro err htr hc
    have he : (env.getD "").isEmpty = false := by
      rw [hts] at htr
      simpa using htr
    simp [test_connection, he, hc]

/-- C6 witness: with a truthy setting and a failing count query, the failure
is reported in the printed lines (and not raised). -/
theorem test_connection_boolean_boundary_witness :
    "Connection failed: " ++ DriverError.badConnection.message ∈
      (test_connection sampleState (some "mysql://localhost/funds")
        (fun _ => .error .badConnection)).2 :=
  (test_connection_boolean_boundary sampleState (some "mysql://localhost/funds")
    (fun _ => .error .badConnection)).2 DriverError.badConnection
    (by decide) rfl

/-- A driver that always fails with a connection error (for the C7
witness). -/
def failExec : Engine → String → List (String × String) →
    Except DriverError (List Row) :=
  fun _ _ _ => .error .badConnection

/-- C7: when the driver execution of the assembled statement fails, the
operation fails with the query error wrapping that driver error, visible to
the caller; and the result is determined by the single execution outcome
alone — there is no internal retry. -/
theorem query_error_propagates (reader : FundNAVReader)
    (exec : Engine → String → List (String × String) → Except DriverError (List Row))
    (cs : Option (List String)) (sd ed : Option String) (err : DriverError)
    (h : exec reader.engine (buildQuery cs sd ed) (buildParams cs sd ed) =
      .error err) :
    reader.run_get_fund_nav_data exec cs sd ed = .error (QueryError.wrap err) ∧
    (∀ exec2 : Engine → String → List (String × String) →
        Except DriverError (List Row),
      exec2 reader.engine (buildQuery cs sd ed) (buildParams cs sd ed) =
        exec reader.engine (buildQuery cs sd ed) (buildParams cs sd ed) →
      reader.run_get_fund_nav_data exec2 cs sd ed =
        reader.run_get_fund_nav_data exec cs sd ed) := by
  constructor
  · simp [FundNAVReader.run_get_fund_nav_data, h]
  · intro exec2 h2
    simp [FundNAVReader.run_get_fund_nav_data, h2]

/-- C7 witness: a failing driver yields the wrapped connection error. -/
theorem query_error_propagates_witness :
    sampleReader.run_get_fund_nav_data failExec none none none =
      .error (QueryError.wrap .badConnection) :=
  (query_error_propagates sampleReader failExec none none none
    .badConnection rfl).1

/-- C10: the singleton repository is constructed at module import time, so
an absent connection setting raises the configuration error already at
module load; and each module-level operation consults the database world only at
the singleton's engine (two worlds agreeing there are indistinguishable to
every operation). -/
theorem singleton_constructed_at_import (env env2 : Option String)
    (st : ModuleState) (db db2 : Engine → List Row)
    (countOf countOf2 : Engine → Except DriverError Nat)
    (henv : truthyStr env = false)
    (hdb : db st.reader.engine = db2 st.reader.engine)
    (hcount : countOf st.reader.engine = countOf2 st.reader.engine) :
    importModule env = .error .databaseUrlNotFound ∧
    (∀ cs sd ed, get_fund_nav_data st db cs sd ed =
      get_fund_nav_data st db2 cs sd ed) ∧
    get_all_fund_codes st db = get_all_fund_codes st db2 ∧
    get_date_range st db = get_date_range st db2 ∧
    test_connection st env2 countOf = test_connection st env2 countOf2 := by
  refine ⟨?_, ?_, ?_, ?_, ?_⟩
  · rw [importModule, init_error_of_falsy henv]
  · intro cs sd ed
    simp [get_fund_nav_data, FundNAVReader.get_fund_nav_data, hdb]
  · simp [get_all_fund_codes, hdb]
  · simp [get_date_range, hdb]
  · simp [test_connection, hcount]

/-- C10 witness: importing the module with no `DATABASE_URL` raises the
configuration error at import time. -/
theorem singleton_constructed_at_import_witness :
    importModule none = .error .databaseUrlNotFound :=
  (singleton_constructed_at_import none (some "mysql://localhost/funds")
    sampleState sampleDb sampleDb (fun _ => .ok 3) (fun _ => .ok 3)
    rfl rfl rfl).1

/-- C9 witness: on the concrete state, the all-empty filters return the full
table. -/
theorem empty_filters_treated_as_absent_witness :
    get_fund_nav_data sampleState sampleDb (some []) (some "") (some "") =
      sampleDb sampleState.reader.engine :=
  (empty_filters_treated_as_absent sampleState sampleDb none none none).2.2.2

/-- C4 witness: the concrete code list is duplicate-free. -/
theorem list_codes_distinct_sorted_witness :
    (get_all_fund_codes sampleState sampleDb).Nodup :=
  (list_codes_distinct_sorted sampleState sampleDb).2.2

/-- C5 witness: on the concrete table the returned minimum is an attained
date. -/
theorem date_range_bounds_witness :
    "2023-01-01" ∈ (sampleDb sampleState.reader.engine).map Row.nav_date :=
  ((date_range_bounds sampleState sampleDb).2.1 "2023-01-01" "2023-06-01"
    (by decide)).2.1
